import Mathlib

/-!
Verification development for the vocare restaurant voice-assistant repository.

The data model and the operations below are shallow embeddings of the Python
source files `assistant.py`, `config.py` and `main.py`.  Python dictionaries
are modelled as association lists in insertion order (Python dicts preserve
insertion order); machine strings are Lean `String`; fallible code returns
`Except`.  Components the repository only references (the persona agents,
the handoff controller, the `UserData` record imported from outside `src/`)
are modelled from the spec and marked as such in their doc comments.
-/

/-- Embeds the menu-item record used by `assistant.py` (`item.id`, `item.name`,
`item.category`, `item.price`, `item.description`, `item.allergens`,
`item.available`).  The price is kept as its rendered decimal text, since the
source only ever interpolates it into prompt strings. -/
structure MenuItem where
  id : String
  name : String
  category : String
  price : String
  description : String
  allergens : List String
  available : Bool
deriving DecidableEq, Repr

/-- Menu cache snapshot: the values of the Python dict `self.menu_cache`
(`assistant.py` line 24/33) in insertion order. -/
abbrev MenuSnapshot := List MenuItem

/-- Embeds `[item for item in self.menu_cache.values() if item.available]`
(`assistant.py` line 89). -/
def availableItems (cache : MenuSnapshot) : List MenuItem :=
  cache.filter (fun it => it.available)

/-- First-match association lookup over the category dictionary, the
embedding of `menu_by_category[category]` / `category in menu_by_category`. -/
def lookupCat : List (String × List MenuItem) → String → Option (List MenuItem)
  | [], _ => none
  | p :: rest, c => if p.1 = c then some p.2 else lookupCat rest c

/-- Embeds one iteration of the grouping loop in `assistant.py` lines 93-96:
if the category key is absent, a fresh singleton entry is appended at the end
(Python dict insertion order); otherwise the item is appended to the existing
entry for its category. -/
def insertByCategory (acc : List (String × List MenuItem)) (it : MenuItem) :
    List (String × List MenuItem) :=
  match lookupCat acc it.category with
  | none => acc ++ [(it.category, [it])]
  | some _ => acc.map (fun p => if p.1 = it.category then (p.1, p.2 ++ [it]) else p)

/-- Embeds the `menu_by_category` dictionary built in `assistant.py`
lines 92-96: a fold of `insertByCategory` over the available items. -/
def groupedByCategory (cache : MenuSnapshot) : List (String × List MenuItem) :=
  (availableItems cache).foldl insertByCategory []

/-- Keys (category names) of a grouped view, in insertion order. -/
def keysOf (g : List (String × List MenuItem)) : List String :=
  g.map Prod.fst

/-- Embeds the per-item allergen annotation of `assistant.py` line 103. -/
def allergenInfo (it : MenuItem) : String :=
  if it.allergens.isEmpty then ""
  else " (Contains: " ++ String.intercalate ", " it.allergens ++ ")"

/-- Embeds the per-item menu line of `assistant.py` line 104. -/
def itemLine (it : MenuItem) : String :=
  "- " ++ it.name ++ ": $" ++ it.price ++ " - " ++ it.description ++ allergenInfo it ++ "\n"

/-- Embeds one category block of the menu text (`assistant.py` lines 101-104). -/
def categoryBlock (p : String × List MenuItem) : String :=
  "\n" ++ p.1.toUpper ++ ":\n" ++ String.join (p.2.map itemLine)

/-- Embeds `menu_text` built in `assistant.py` lines 99-104: the fixed
header followed by one block per category of the grouped view. -/
def menuText (cache : MenuSnapshot) : String :=
  "CURRENT MENU:\n" ++ String.join ((groupedByCategory cache).map categoryBlock)

/-- Embeds the `call_context` dictionary (`assistant.py` lines 108-110):
only the keys the source reads. `none` stands for a falsy / absent dict. -/
structure CallContext where
  customer_phone : Option String
  customer_history : Option String
deriving DecidableEq, Repr

/-- Embeds `customer_context` (`assistant.py` lines 107-110).  Python
truthiness: an absent dict, an absent phone key and an empty phone string all
skip the context block; the history defaults to the empty string. -/
def customerContext (ctx : Option CallContext) : String :=
  match ctx with
  | none => ""
  | some c =>
    match c.customer_phone with
    | none => ""
    | some ph =>
      if ph.isEmpty then ""
      else "\nCUSTOMER CONTEXT:\n" ++ c.customer_history.getD ""

/-- Fixed prompt text preceding the menu section (`assistant.py` lines 112-123). -/
def promptHeader : String :=
  "\nYou are a friendly voice assistant for Bella\x27s Italian Kitchen. You help customers place orders over the phone.\n\nCORE BEHAVIORS:\n1. Greet customers warmly and ask how you can help\n2. Help customers navigate the menu and make selections\n3. Ask about quantities, modifications, and special requests\n4. Confirm orders clearly before finalizing\n5. Collect customer information (name and phone number)\n6. Provide estimated pickup/delivery times\n7. Handle dietary restrictions and allergen concerns\n\n"

/-- Fixed prompt text between the menu section and the customer context
(`assistant.py` line 125). -/
def promptMid : String := "\n\n"

/-- Fixed prompt text after the customer context (`assistant.py`
lines 128-137). -/
def promptFooter : String :=
  "\n\nIMPORTANT GUIDELINES:\n- Always confirm allergen information when customers ask\n- Suggest popular items or daily specials when appropriate\n- Be patient with elderly customers or those who need extra time\n- If an item is unavailable, suggest similar alternatives\n- Keep responses conversational and natural, not robotic\n- Use the available functions to search menu, add items, and access customer history\n\nStart each conversation with: \"Hello! Thank you for calling Bella\x27s Italian Kitchen. How can I help you today?\"\n"

/-- Embeds `FirebaseRestaurantAssistant._generate_system_prompt`
(`assistant.py` lines 85-137): fixed header, menu text from the cache
snapshot, customer context from the call context, fixed footer.  The Python
method reads only `self.menu_cache` and `call_context`; both are explicit
arguments here. -/
def generateSystemPrompt (ctx : Option CallContext) (cache : MenuSnapshot) : String :=
  promptHeader ++ menuText cache ++ promptMid ++ customerContext ctx ++ promptFooter

/-- One step of the dict comprehension `item.id: item` (`assistant.py`
line 33): a repeated id overwrites the stored value in place, a fresh id is
appended at the end (Python dict insertion order). -/
def insertById (acc : List MenuItem) (it : MenuItem) : List MenuItem :=
  if acc.any (fun j => j.id = it.id) then
    acc.map (fun j => if j.id = it.id then it else j)
  else acc ++ [it]

/-- Embeds `{item.id: item for item in menu_items}` (`assistant.py`
line 33), as the value list of the resulting dict. -/
def dictById (items : List MenuItem) : MenuSnapshot :=
  items.foldl insertById []

/-- Embeds `FirebaseRestaurantAssistant._load_menu_cache` (`assistant.py`
lines 29-36).  `fetch` is the outcome of `self.firebase.get_menu_items()`;
the function returns the new cache state and the log line it emitted.  The
`try/except` block makes the body total: on failure the previous cache is
returned unchanged together with the error log line. -/
def loadMenuCache (fetch : Except String (List MenuItem)) (cache : MenuSnapshot) :
    MenuSnapshot × Option String :=
  match fetch with
  | Except.ok items => (dictById items, none)
  | Except.error e => (cache, some ("Error loading menu cache: " ++ e))

/-- Appending category dictionaries: a key is looked up in the left part
first, then in the right part. -/
theorem lookupCat_append (l₁ l₂ : List (String × List MenuItem)) (c : String) :
    lookupCat (l₁ ++ l₂) c =
      match lookupCat l₁ c with
      | some xs => some xs
      | none => lookupCat l₂ c := by
  induction l₁ with
  | nil => simp [lookupCat]
  | cons p rest ih =>
    by_cases h : p.1 = c
    · simp [lookupCat, h]
    · simp [lookupCat, h, ih]

/-- Appending an item to the entries of a different category does not change
a lookup. -/
theorem lookupCat_map_update_ne (l : List (String × List MenuItem)) (it : MenuItem)
    (c : String) (h : ¬ c = it.category) :
    lookupCat (l.map (fun p => if p.1 = it.category then (p.1, p.2 ++ [it]) else p)) c =
      lookupCat l c := by
  induction l with
  | nil => rfl
  | cons p rest ih =>
    have hic : ¬ it.category = c := fun hh => h hh.symm
    by_cases hp1 : p.1 = it.category
    · simp [lookupCat, hp1, hic, ih]
    · by_cases hpc : p.1 = c
      · simp [lookupCat, hp1, hpc, h]
      · simp [lookupCat, hp1, hpc, ih]

/-- Appending an item to the entries of its own category appends it to the
looked-up list. -/
theorem lookupCat_map_update_eq (l : List (String × List MenuItem)) (it : MenuItem) :
    lookupCat (l.map (fun p => if p.1 = it.category then (p.1, p.2 ++ [it]) else p))
        it.category =
      (lookupCat l it.category).map (fun xs => xs ++ [it]) := by
  induction l with
  | nil => rfl
  | cons p rest ih =>
    by_cases hp : p.1 = it.category
    · simp [lookupCat, hp]
    · simp [lookupCat, hp, ih]

/-- Effect of one grouping step on lookups: the item is appended to its own
category (freshly created when absent) and no other category changes. -/
theorem lookupCat_insertByCategory (acc : List (String × List MenuItem)) (it : MenuItem)
    (c : String) :
    lookupCat (insertByCategory acc it) c =
      if c = it.category then some (((lookupCat acc c).getD []) ++ [it])
      else lookupCat acc c := by
  unfold insertByCategory
  cases hl : lookupCat acc it.category with
  | none =>
    rw [lookupCat_append]
    by_cases hc : c = it.category
    · subst hc
      rw [hl]
      simp [lookupCat]
    · have hcc : ¬ it.category = c := fun hh => hc hh.symm
      cases hacc : lookupCat acc c with
      | none => simp [lookupCat, hc, hcc]
      | some xs => simp [hc]
  | some xs =>
    by_cases hc : c = it.category
    · subst hc
      rw [lookupCat_map_update_eq, hl]
      simp
    · rw [lookupCat_map_update_ne _ _ _ hc]
      simp [hc]

/-- Combines an already-accumulated category entry with the remaining items
of that category: `none` stays `none` exactly when nothing is added. -/
def optJoin (o : Option (List MenuItem)) (ys : List MenuItem) : Option (List MenuItem) :=
  match o with
  | some xs => some (xs ++ ys)
  | none => if ys.isEmpty then none else some ys

/-- Lookup after folding the grouping step over an item list: the filtered
items of the category are appended to whatever the accumulator held. -/
theorem lookupCat_foldl_insert (l : List MenuItem) (acc : List (String × List MenuItem))
    (c : String) :
    lookupCat (l.foldl insertByCategory acc) c =
      optJoin (lookupCat acc c) (l.filter (fun i => decide (i.category = c))) := by
  induction l generalizing acc with
  | nil =>
    cases h : lookupCat acc c <;> simp [optJoin, h]
  | cons it rest ih =>
    rw [List.foldl_cons, ih, lookupCat_insertByCategory]
    by_cases hc : c = it.category
    · subst hc
      cases h : lookupCat acc it.category with
      | none => simp [optJoin, h]
      | some xs => simp [optJoin, h]
    · have hit : ¬ it.category = c := fun hh => hc hh.symm
      simp [optJoin, hc, hit]

/-- Closed form for lookups in the grouped view: the available items of the
category, in first-seen order, or `none` when the category has none. -/
theorem lookupCat_grouped (cache : MenuSnapshot) (c : String) :
    lookupCat (groupedByCategory cache) c =
      optJoin none ((availableItems cache).filter (fun i => decide (i.category = c))) := by
  unfold groupedByCategory
  rw [lookupCat_foldl_insert]
  rfl

/-- A category lookup succeeds exactly when the category is among the keys. -/
theorem lookupCat_isSome_iff_mem_keys (g : List (String × List MenuItem)) (c : String) :
    (lookupCat g c).isSome = true ↔ c ∈ keysOf g := by
  induction g with
  | nil => simp [lookupCat, keysOf]
  | cons p rest ih =>
    by_cases h : p.1 = c
    · simp [lookupCat, keysOf, h]
    · have h2 : ¬ c = p.1 := fun hh => h hh.symm
      simp [lookupCat, keysOf, h, h2, ih]

/-- One grouping step keeps the key list, or appends the new category at the
end when it was absent. -/
theorem keysOf_insertByCategory (acc : List (String × List MenuItem)) (it : MenuItem) :
    keysOf (insertByCategory acc it) =
      match lookupCat acc it.category with
      | some _ => keysOf acc
      | none => keysOf acc ++ [it.category] := by
  unfold insertByCategory
  cases lookupCat acc it.category with
  | none => simp [keysOf]
  | some xs =>
    simp only [keysOf, List.map_map]
    have hfun : (Prod.fst ∘ fun p : String × List MenuItem =>
        if p.1 = it.category then (p.1, p.2 ++ [it]) else p) = Prod.fst := by
      funext p
      by_cases h : p.1 = it.category <;> simp [h]
    rw [hfun]

/-- One grouping step preserves distinctness of the category keys. -/
theorem keysOf_nodup_insertByCategory (acc : List (String × List MenuItem)) (it : MenuItem)
    (h : (keysOf acc).Nodup) : (keysOf (insertByCategory acc it)).Nodup := by
  rw [keysOf_insertByCategory]
  cases hl : lookupCat acc it.category with
  | some xs => exact h
  | none =>
    have hnm : ¬ it.category ∈ keysOf acc := by
      rw [← lookupCat_isSome_iff_mem_keys]
      simp [hl]
    simp [List.nodup_append, h, hnm]

/-- Folding the grouping step preserves distinctness of the category keys. -/
theorem keysOf_nodup_foldl (l : List MenuItem) (acc : List (String × List MenuItem))
    (h : (keysOf acc).Nodup) : (keysOf (l.foldl insertByCategory acc)).Nodup := by
  induction l generalizing acc with
  | nil => exact h
  | cons it rest ih => exact ih _ (keysOf_nodup_insertByCategory _ _ h)

/-- Category keys of the grouped view are pairwise distinct. -/
theorem keysOf_grouped_nodup (cache : MenuSnapshot) :
    (keysOf (groupedByCategory cache)).Nodup :=
  keysOf_nodup_foldl _ [] (by simp [keysOf])

/-- A successful lookup exhibits an entry of the dictionary. -/
theorem mem_of_lookupCat (g : List (String × List MenuItem)) (c : String)
    (xs : List MenuItem) (h : lookupCat g c = some xs) : (c, xs) ∈ g := by
  induction g with
  | nil => cases h
  | cons p rest ih =>
    by_cases hp : p.1 = c
    · simp only [lookupCat, if_pos hp] at h
      have : (c, xs) = p := by
        cases p
        cases h
        cases hp
        rfl
      rw [this]
      exact List.mem_cons_self _ _
    · simp only [lookupCat, if_neg hp] at h
      exact List.mem_cons_of_mem _ (ih h)

/-- With distinct keys, every entry of the dictionary is the result of
looking up its own key. -/
theorem lookupCat_of_mem_nodup (g : List (String × List MenuItem))
    (h : (keysOf g).Nodup) (c : String) (xs : List MenuItem) (hm : (c, xs) ∈ g) :
    lookupCat g c = some xs := by
  induction g with
  | nil => cases hm
  | cons p rest ih =>
    have h2 : (p.1 :: keysOf rest).Nodup := h
    have hnd := List.nodup_cons.mp h2
    rcases List.mem_cons.mp hm with he | ht
    · rw [← he]
      simp [lookupCat]
    · have hp : ¬ p.1 = c := by
        intro hpc
        have hck : c ∈ keysOf rest := by
          have : (c, xs).1 ∈ List.map Prod.fst rest := List.mem_map_of_mem Prod.fst ht
          simpa [keysOf] using this
        exact hnd.1 (hpc ▸ hck)
      have htl : (keysOf rest).Nodup := by simpa [keysOf] using hnd.2
      simp only [lookupCat, if_neg hp]
      exact ih htl ht

/-- Every entry of the grouped view holds exactly the available items of its
own category, in first-seen order. -/
theorem grouped_entry_eq (cache : MenuSnapshot) (p : String × List MenuItem)
    (hp : p ∈ groupedByCategory cache) :
    p.2 = (availableItems cache).filter (fun i => decide (i.category = p.1)) := by
  have h1 : lookupCat (groupedByCategory cache) p.1 = some p.2 :=
    lookupCat_of_mem_nodup _ (keysOf_grouped_nodup cache) p.1 p.2 (by
      cases p
      exact hp)
  rw [lookupCat_grouped] at h1
  unfold optJoin at h1
  by_cases he : ((availableItems cache).filter (fun i => decide (i.category = p.1))).isEmpty
  · rw [if_pos he] at h1
    cases h1
  · rw [if_neg he] at h1
    exact (Option.some.inj h1).symm

/-- Full correctness property of the grouped-by-category view for one cache
snapshot: membership is exactly present-and-available, category keys are
distinct, every entry holds exactly the available items of its own category
in first-seen order without duplicates, and an item never appears in two
entries. -/
def GroupedSpec (cache : MenuSnapshot) : Prop :=
  (∀ it : MenuItem,
      (∃ p, p ∈ groupedByCategory cache ∧ it ∈ p.2) ↔
        (it ∈ cache ∧ it.available = true)) ∧
  (keysOf (groupedByCategory cache)).Nodup ∧
  (∀ p, p ∈ groupedByCategory cache →
      p.2 = (availableItems cache).filter (fun i => decide (i.category = p.1)) ∧
      (∀ i, i ∈ p.2 → i.category = p.1) ∧ p.2.Nodup) ∧
  (∀ p q, p ∈ groupedByCategory cache → q ∈ groupedByCategory cache →
      ∀ i, i ∈ p.2 → i ∈ q.2 → p = q)

/-- C2: For every MenuCache snapshot (with the Python dict key invariant that
item ids are distinct), the grouped-by-category view used to render the menu
prompt contains an item iff the item is in the snapshot with `available`
true, contains no duplicates, places every available item under exactly one
category, and lists the items of each category in first-seen order among the
available items. -/
theorem C2_grouped_by_category (cache : MenuSnapshot)
    (h : (cache.map MenuItem.id).Nodup) : GroupedSpec cache := by
  have hcache : cache.Nodup := h.of_map
  refine ⟨?_, keysOf_grouped_nodup cache, ?_, ?_⟩
  · intro it
    constructor
    · rintro ⟨p, hp, hit⟩
      rw [grouped_entry_eq cache p hp] at hit
      have h1 := (List.mem_filter.mp hit).1
      have h2 := List.mem_filter.mp h1
      exact ⟨h2.1, h2.2⟩
    · rintro ⟨hmem, hav⟩
      have hinav : it ∈ availableItems cache := List.mem_filter.mpr ⟨hmem, hav⟩
      have hys : it ∈ (availableItems cache).filter
          (fun i => decide (i.category = it.category)) :=
        List.mem_filter.mpr ⟨hinav, by simp⟩
      have hlk : lookupCat (groupedByCategory cache) it.category =
          some ((availableItems cache).filter
            (fun i => decide (i.category = it.category))) := by
        rw [lookupCat_grouped]
        unfold optJoin
        cases hys2 : (availableItems cache).filter
            (fun i => decide (i.category = it.category)) with
        | nil =>
          rw [hys2] at hys
          cases hys
        | cons a as => simp
      exact ⟨_, mem_of_lookupCat _ _ _ hlk, hys⟩
  · intro p hp
    have heq := grouped_entry_eq cache p hp
    refine ⟨heq, ?_, ?_⟩
    · intro i hi
      rw [heq] at hi
      have := (List.mem_filter.mp hi).2
      simpa using this
    · rw [heq]
      exact (hcache.filter _).filter _
  · intro p q hp hq i hip hiq
    have hcp : i.category = p.1 := by
      rw [grouped_entry_eq cache p hp] at hip
      simpa using (List.mem_filter.mp hip).2
    have hcq : i.category = q.1 := by
      rw [grouped_entry_eq cache q hq] at hiq
      simpa using (List.mem_filter.mp hiq).2
    have hkey : p.1 = q.1 := hcp ▸ hcq
    have hlp : lookupCat (groupedByCategory cache) p.1 = some p.2 :=
      lookupCat_of_mem_nodup _ (keysOf_grouped_nodup cache) p.1 p.2 (by
        cases p
        exact hp)
    have hlq : lookupCat (groupedByCategory cache) q.1 = some q.2 :=
      lookupCat_of_mem_nodup _ (keysOf_grouped_nodup cache) q.1 q.2 (by
        cases q
        exact hq)
    rw [← hkey] at hlq
    rw [hlp] at hlq
    have hsnd : p.2 = q.2 := Option.some.inj hlq
    cases p
    cases q
    cases hkey
    cases hsnd
    rfl

/-- Concrete three-item snapshot used to witness C2: two categories, one
unavailable item. -/
def cacheW : MenuSnapshot :=
  [{ id := "m1", name := "Margherita", category := "pizza", price := "12.5",
     description := "Tomato and mozzarella", allergens := ["dairy"], available := true },
   { id := "m2", name := "Carbonara", category := "pasta", price := "14.0",
     description := "Egg and pancetta", allergens := ["egg", "dairy"], available := true },
   { id := "m3", name := "Diavola", category := "pizza", price := "13.0",
     description := "Spicy salami", allergens := [], available := false }]

/-- Witness for C2 at the concrete snapshot `cacheW`. -/
theorem C2_grouped_by_category_witness :
    (cacheW.map MenuItem.id).Nodup ∧ GroupedSpec cacheW :=
  ⟨by decide, C2_grouped_by_category cacheW (by decide)⟩

/-- C3: Rendering instructions is deterministic.  The source method
`_generate_system_prompt` reads only the call context and the menu-cache
snapshot (no time, randomness or other ambient state), so its embedding is a
pure function of those two arguments and two runs on the same CallSession
and snapshot yield byte-identical text. -/
theorem C3_render_instructions_deterministic (ctx : Option CallContext)
    (cache : MenuSnapshot) :
    generateSystemPrompt ctx cache = generateSystemPrompt ctx cache := rfl

set_option maxRecDepth 8192 in
/-- C4 counterexample: with the cache empty, the rendered instructions still
contain the menu section (the fixed `CURRENT MENU:` header is emitted
unconditionally at `assistant.py` line 99), refuting the claim that the
rendered instructions contain no menu section. -/
theorem C4_counterexample :
    ∃ pre post : String,
      generateSystemPrompt none [] = pre ++ "CURRENT MENU:\n" ++ post :=
  ⟨promptHeader, promptMid ++ customerContext none ++ promptFooter, by decide⟩

set_option maxRecDepth 8192 in
/-- C4 (amended): when the menu-cache load fails, the failure is logged, the
cache keeps its previous (possibly empty) snapshot, and no exception reaches
the caller (the embedding of the `try/except` body is total); with the cache
empty, the rendered instructions contain the fixed menu header but no
category or item lines, and rendering does not raise. -/
theorem C4_load_failure_keeps_cache (e : String) (cache : MenuSnapshot) :
    loadMenuCache (Except.error e) cache =
      (cache, some ("Error loading menu cache: " ++ e)) ∧
    menuText [] = "CURRENT MENU:\n" ∧
    generateSystemPrompt none [] =
      promptHeader ++ "CURRENT MENU:\n" ++ promptMid ++ promptFooter := by
  refine ⟨rfl, by decide, by decide⟩

/-- Embeds the `AgentConfig` dataclass of `config.py` lines 9-27. -/
structure AgentConfig where
  openai_api_key : String
  openai_model : String
  deepgram_api_key : String
  cartesia_api_key : String
  cartesia_voice_id : Option String
  vad_model : String
  firebase_service_account_path : String
deriving DecidableEq, Repr

/-- Process environment as read by `config.py`: `os.getenv` yields `none`
for an unset variable and the (possibly empty) string otherwise. -/
structure Env where
  openai_api_key : Option String
  deepgram_api_key : Option String
  cartesia_api_key : Option String
  openai_model : Option String
  cartesia_voice_id : Option String
  firebase_service_account_path : Option String
deriving DecidableEq, Repr

/-- Python truthiness of an optional string: `None` and the empty string are
falsy, every other string is truthy. -/
def truthy : Option String → Bool
  | none => false
  | some s => !s.isEmpty

/-- Embeds `load_config` (`config.py` lines 29-58): read the three required
keys, raise `ValueError` (modelled as `Except.error` with the message) when
one is falsy, otherwise build the config with the optional defaults. -/
def load_config (env : Env) : Except String AgentConfig :=
  if !truthy env.openai_api_key then
    Except.error "OPENAI_API_KEY environment variable is required"
  else if !truthy env.deepgram_api_key then
    Except.error "DEEPGRAM_API_KEY environment variable is required"
  else if !truthy env.cartesia_api_key then
    Except.error "CARTESIA_API_KEY environment variable is required"
  else
    Except.ok
      { openai_api_key := env.openai_api_key.getD ""
        openai_model := env.openai_model.getD "gpt-4o-mini"
        deepgram_api_key := env.deepgram_api_key.getD ""
        cartesia_api_key := env.cartesia_api_key.getD ""
        cartesia_voice_id := env.cartesia_voice_id
        vad_model := "silero"
        firebase_service_account_path :=
          env.firebase_service_account_path.getD "service.json" }

/-- Embeds `validate_config` (`config.py` lines 60-73): Python
`all(required_fields)` over the three key strings, i.e. all non-empty. -/
def validate_config (config : AgentConfig) : Bool :=
  !config.openai_api_key.isEmpty &&
  !config.deepgram_api_key.isEmpty &&
  !config.cartesia_api_key.isEmpty

/-- Embeds the configuration step at the top of `entrypoint` (`main.py`
lines 15-18): `load_config`, then the `validate_config` guard that raises
`ValueError("Invalid configuration - check your API keys")`. -/
def entrypointConfigStep (env : Env) : Except String AgentConfig :=
  match load_config env with
  | Except.error e => Except.error e
  | Except.ok config =>
    if validate_config config then Except.ok config
    else Except.error "Invalid configuration - check your API keys"

/-- Embeds the SIP call metadata exposed by `SipContext(ctx).call_info`
(`main.py` lines 28-34). -/
structure SipCallInfo where
  call_id : String
  from_number : String
  to_number : String
deriving DecidableEq, Repr

/-- Embeds the part of the LiveKit `JobContext` that `entrypoint` reads when
normalizing call metadata: the job type and the room name, plus the SIP
signaling context for SIP jobs. -/
structure JobCtx where
  job_type : String
  room_name : String
  sip : SipCallInfo
deriving DecidableEq, Repr

/-- Normalized call metadata, the `call_info` dict of `main.py`
lines 29-44. -/
structure CallInfo where
  call_id : String
  caller_number : String
  called_number : String
  call_type : String
deriving DecidableEq, Repr

/-- Embeds the metadata normalization in `entrypoint` (`main.py`
lines 23-44): SIP jobs source all fields from the inbound signaling context
with call type `inbound_sip`; other jobs are web sessions keyed by the room
name with sentinel caller and called numbers. -/
def normalizeCallInfo (ctx : JobCtx) : CallInfo :=
  if ctx.job_type = "sip_call" then
    { call_id := ctx.sip.call_id
      caller_number := ctx.sip.from_number
      called_number := ctx.sip.to_number
      call_type := "inbound_sip" }
  else
    { call_id := ctx.room_name
      caller_number := "web_user"
      called_number := "restaurant"
      call_type := "web_session" }

/-- The four persona-agent variants constructed in `entrypoint` (`main.py`
lines 56-82).  Their classes (`IntentClassifierAgent`, `OrderAgent`,
`ReservationAgent`, `ConfirmationAgent`) are imported from outside `src/`,
so the variants are represented by this tag, per spec section 3
(`PersonaAgent` variant tag). -/
inductive PersonaName where
  | intent_classifier
  | order
  | reservation
  | confirmation
deriving DecidableEq, Repr

/-- Modelled from the spec: the `UserData` record imported from
`app.models.restaurant` is not under `src/`.  Spec section 3 describes the
call-session record with the fields `entrypoint` passes to it (`main.py`
lines 47-53) plus a mandatory persona registry (`registry mapping persona
name to PersonaAgent instance`; spec section 9 makes the registry an
always-present field, so the `hasattr` probe for the personas field in
`main.py` line 85 succeeds). -/
structure UserData where
  call_id : String
  caller_number : String
  agent_id : String
  session_id : String
  intent : String
  personas : List (String × PersonaName)
deriving DecidableEq, Repr

/-- Outcome of the session construction in `entrypoint`: the session record and
the agent handed to `session.start` (`main.py` lines 94-110). -/
structure SessionStart where
  userdata : UserData
  startAgent : PersonaName
deriving DecidableEq, Repr

/-- The registration performed on the persona registry by
`userdata.personas.update({...})` (`main.py` lines 85-91), in dict order. -/
def registryEntries : List (String × PersonaName) :=
  [("intent_classifier", PersonaName.intent_classifier),
   ("order", PersonaName.order),
   ("reservation", PersonaName.reservation),
   ("confirmation", PersonaName.confirmation)]

/-- Embeds the session construction in `entrypoint` (`main.py` lines 46-110):
normalize the call metadata, build one `UserData` record (empty registry,
`agent_id` and `intent` fixed by the source), construct the four persona
agents, register all four under their names, and start the session with the
intent classifier as the active agent. -/
def entrypointStart (ctx : JobCtx) : SessionStart :=
  let info := normalizeCallInfo ctx
  let userdata : UserData :=
    { call_id := info.call_id
      caller_number := info.caller_number
      agent_id := "restaurant-assistant"
      session_id := info.call_id
      intent := "incoming_call"
      personas := [] }
  let registered : UserData :=
    { userdata with personas := userdata.personas ++ registryEntries }
  { userdata := registered, startAgent := PersonaName.intent_classifier }

/-- C5: for every call, the entrypoint constructs one session record,
constructs the four persona agents, registers every one of them in the
persona registry under its name, and starts the dialogue loop with the
intent classifier as the active persona.  The `UserData` registry is
modelled from the spec (see `UserData`), so the `hasattr` guard of
`main.py` line 85 always passes. -/
theorem C5_entrypoint_registers_all (ctx : JobCtx) :
    (entrypointStart ctx).userdata.personas = registryEntries ∧
    (∀ p : PersonaName, ∃ n : String,
        (n, p) ∈ (entrypointStart ctx).userdata.personas) ∧
    (entrypointStart ctx).startAgent = PersonaName.intent_classifier ∧
    (entrypointStart ctx).userdata.call_id = (normalizeCallInfo ctx).call_id ∧
    (entrypointStart ctx).userdata.session_id = (normalizeCallInfo ctx).call_id := by
  refine ⟨rfl, ?_, rfl, rfl, rfl⟩
  intro p
  have hre : (entrypointStart ctx).userdata.personas = registryEntries := rfl
  rw [hre]
  cases p
  · exact ⟨"intent_classifier", by decide⟩
  · exact ⟨"order", by decide⟩
  · exact ⟨"reservation", by decide⟩
  · exact ⟨"confirmation", by decide⟩

/-- C9: the entrypoint normalizes transport metadata: a SIP call sources the
call id and both numbers from the inbound signaling context with call type
`inbound_sip`; any other job is a web session keyed by the room name with
sentinel caller and called numbers and call type `web_session`. -/
theorem C9_call_metadata_normalization (ctx : JobCtx) :
    (ctx.job_type = "sip_call" →
      normalizeCallInfo ctx =
        { call_id := ctx.sip.call_id
          caller_number := ctx.sip.from_number
          called_number := ctx.sip.to_number
          call_type := "inbound_sip" }) ∧
    (¬ ctx.job_type = "sip_call" →
      normalizeCallInfo ctx =
        { call_id := ctx.room_name
          caller_number := "web_user"
          called_number := "restaurant"
          call_type := "web_session" }) := by
  constructor
  · intro h
    simp [normalizeCallInfo, h]
  · intro h
    simp [normalizeCallInfo, h]

/-- Witness for C9 on a concrete SIP job context. -/
theorem C9_call_metadata_normalization_witness :
    normalizeCallInfo
        { job_type := "sip_call", room_name := "room-7"
          sip := { call_id := "sip-1", from_number := "+15550001"
                   to_number := "+15559999" } } =
      { call_id := "sip-1", caller_number := "+15550001"
        called_number := "+15559999", call_type := "inbound_sip" } :=
  (C9_call_metadata_normalization
    { job_type := "sip_call", room_name := "room-7"
      sip := { call_id := "sip-1", from_number := "+15550001"
               to_number := "+15559999" } }).1 rfl

/-- Environment in which every required key is set but the OpenAI key is the
empty string. -/
def envEmptyKey : Env :=
  { openai_api_key := some ""
    deepgram_api_key := some "dg-key"
    cartesia_api_key := some "ca-key"
    openai_model := none
    cartesia_voice_id := none
    firebase_service_account_path := none }

/-- C8 counterexample: in `envEmptyKey` all three required keys are present
in the environment (none is missing), yet `load_config` raises, because the
source tests Python truthiness and the empty string is falsy.  This refutes
the claim that `load_config` raises exactly when a required key is missing
from the environment. -/
theorem C8_counterexample :
    envEmptyKey.openai_api_key.isSome = true ∧
    envEmptyKey.deepgram_api_key.isSome = true ∧
    envEmptyKey.cartesia_api_key.isSome = true ∧
    load_config envEmptyKey =
      Except.error "OPENAI_API_KEY environment variable is required" :=
  ⟨rfl, rfl, rfl, rfl⟩

/-- C8 (amended): `load_config` raises a `ValueError` exactly when at least
one required API key is missing from the environment or set to the empty
string; otherwise it returns a config carrying all three keys. -/
theorem C8_load_config_required_keys (env : Env) :
    ((∃ msg, load_config env = Except.error msg) ↔
      (truthy env.openai_api_key = false ∨ truthy env.deepgram_api_key = false ∨
        truthy env.cartesia_api_key = false)) ∧
    (∀ config, load_config env = Except.ok config →
      config.openai_api_key = env.openai_api_key.getD "" ∧
      config.deepgram_api_key = env.deepgram_api_key.getD "" ∧
      config.cartesia_api_key = env.cartesia_api_key.getD "") := by
  by_cases h1 : truthy env.openai_api_key = true
  · by_cases h2 : truthy env.deepgram_api_key = true
    · by_cases h3 : truthy env.cartesia_api_key = true
      · constructor
        · simp [load_config, h1, h2, h3]
        · intro config hc
          simp [load_config, h1, h2, h3] at hc
          rw [← hc]
          exact ⟨rfl, rfl, rfl⟩
      · have h3f : truthy env.cartesia_api_key = false := by simpa using h3
        constructor
        · simp [load_config, h1, h2, h3f]
        · intro config hc
          simp [load_config, h1, h2, h3f] at hc
    · have h2f : truthy env.deepgram_api_key = false := by simpa using h2
      constructor
      · simp [load_config, h1, h2f]
      · intro config hc
        simp [load_config, h1, h2f] at hc
  · have h1f : truthy env.openai_api_key = false := by simpa using h1
    constructor
    · simp [load_config, h1f]
    · intro config hc
      simp [load_config, h1f] at hc

/-- Environment with all three required keys set to non-empty strings. -/
def envOkW : Env :=
  { openai_api_key := some "sk-test-1"
    deepgram_api_key := some "dg-test-1"
    cartesia_api_key := some "ca-test-1"
    openai_model := none
    cartesia_voice_id := none
    firebase_service_account_path := none }

/-- Config produced by `load_config` on `envOkW`. -/
def configW : AgentConfig :=
  { openai_api_key := "sk-test-1"
    openai_model := "gpt-4o-mini"
    deepgram_api_key := "dg-test-1"
    cartesia_api_key := "ca-test-1"
    cartesia_voice_id := none
    vad_model := "silero"
    firebase_service_account_path := "service.json" }

/-- Witness for C8 on the concrete environment `envOkW`. -/
theorem C8_load_config_required_keys_witness :
    configW.openai_api_key = envOkW.openai_api_key.getD "" ∧
    configW.deepgram_api_key = envOkW.deepgram_api_key.getD "" ∧
    configW.cartesia_api_key = envOkW.cartesia_api_key.getD "" :=
  (C8_load_config_required_keys envOkW).2 configW rfl

/-- An option passing the Python truthiness test holds a non-empty string. -/
theorem getD_isEmpty_of_truthy (o : Option String) (h : truthy o = true) :
    (o.getD "").isEmpty = false := by
  cases o with
  | none => cases h
  | some s => simpa [truthy] using h

/-- C10: every config returned by a successful `load_config` passes
`validate_config` (its three key fields are non-empty strings), so the
`ValueError` branch guarded by `validate_config` in `entrypoint`
(`main.py` lines 17-18) is unreachable. -/
theorem C10_validate_config_unreachable (env : Env) (config : AgentConfig)
    (h : load_config env = Except.ok config) :
    validate_config config = true ∧ entrypointConfigStep env = Except.ok config := by
  have hv : validate_config config = true := by
    unfold load_config at h
    split at h
    · simp at h
    · split at h
      · simp at h
      · split at h
        · simp at h
        · rename_i hb1 hb2 hb3
          have h1 : truthy env.openai_api_key = true := by simpa using hb1
          have h2 : truthy env.deepgram_api_key = true := by simpa using hb2
          have h3 : truthy env.cartesia_api_key = true := by simpa using hb3
          cases h
          unfold validate_config
          rw [getD_isEmpty_of_truthy _ h1, getD_isEmpty_of_truthy _ h2,
            getD_isEmpty_of_truthy _ h3]
          rfl
  refine ⟨hv, ?_⟩
  unfold entrypointConfigStep
  rw [h]
  simp [hv]

/-- Witness for C10 on the concrete environment `envOkW`. -/
theorem C10_validate_config_unreachable_witness :
    validate_config configW = true ∧
    entrypointConfigStep envOkW = Except.ok configW :=
  C10_validate_config_unreachable envOkW configW rfl

/-- Modelled from the spec: the HandoffController class is imported from
outside `src/` (only its callers appear there).  Spec sections 2-4 describe
it as the state-machine driver holding the persona registry of the
CallSession and the set of currently active personas; the activation
invariant to prove is about the size of `activeList`, so activation is kept
as a list rather than baked into the state type. -/
structure HandoffController where
  registry : List (String × PersonaName)
  activeList : List PersonaName
deriving DecidableEq, Repr

/-- First-match lookup in the persona registry. -/
def findPersona : List (String × PersonaName) → String → Option PersonaName
  | [], _ => none
  | p :: rest, n => if p.1 = n then some p.2 else findPersona rest n

/-- Modelled from the spec: `CallSession.lookup_persona(name)` (spec
section 4.2) resolves a requested target by name and fails with
`UnknownPersonaError` when the name is not registered. -/
def lookup_persona (c : HandoffController) (name : String) : Except String PersonaName :=
  match findPersona c.registry name with
  | none => Except.error "UnknownPersonaError"
  | some p => Except.ok p

/-- Modelled from the spec: the per-turn algorithm of spec section 4.4.  If
the turn recorded a handoff intent, the target is resolved via
`lookup_persona`; a requested target equal to the currently active persona
is a no-op (not an error); otherwise the current persona is deactivated and
the target activated.  Without a recorded intent the same persona stays
active, so a handoff is the only way activation changes. -/
def handoffTurn (c : HandoffController) (req : Option String) :
    Except String HandoffController :=
  match req with
  | none => Except.ok c
  | some target =>
    match lookup_persona c target with
    | Except.error e => Except.error e
    | Except.ok q =>
      match c.activeList with
      | [p] => if q = p then Except.ok c else Except.ok { c with activeList := [q] }
      | _ => Except.ok c

/-- Runs a sequence of turns through the handoff controller, stopping at the
first `UnknownPersonaError`. -/
def runHandoffs (c : HandoffController) :
    List (Option String) → Except String HandoffController
  | [] => Except.ok c
  | r :: rs =>
    match handoffTurn c r with
    | Except.error e => Except.error e
    | Except.ok c2 => runHandoffs c2 rs

/-- One turn preserves the bound of at most one active persona. -/
theorem handoffTurn_active_le_one (c c2 : HandoffController) (req : Option String)
    (h : handoffTurn c req = Except.ok c2) (hl : c.activeList.length ≤ 1) :
    c2.activeList.length ≤ 1 := by
  cases req with
  | none =>
    cases h
    exact hl
  | some target =>
    cases hq : lookup_persona c target with
    | error e =>
      simp [handoffTurn, hq] at h
    | ok q =>
      cases hal : c.activeList with
      | nil =>
        simp only [handoffTurn, hq, hal] at h
        injection h with h2
        subst h2
        simp [hal]
      | cons p rest =>
        cases rest with
        | nil =>
          by_cases hqp : q = p
          · simp only [handoffTurn, hq, hal, hqp, if_pos] at h
            injection h with h2
            subst h2
            exact hl
          · simp only [handoffTurn, hq, hal, if_neg hqp] at h
            injection h with h2
            subst h2
            simp
        | cons p2 rest2 =>
          simp only [handoffTurn, hq, hal] at h
          injection h with h2
          subst h2
          exact hl

/-- Running any sequence of turns preserves the bound of at most one active
persona. -/
theorem runHandoffs_active_le_one (reqs : List (Option String))
    (c c2 : HandoffController) (h : runHandoffs c reqs = Except.ok c2)
    (hl : c.activeList.length ≤ 1) : c2.activeList.length ≤ 1 := by
  induction reqs generalizing c with
  | nil =>
    cases h
    exact hl
  | cons r rs ih =>
    cases hs : handoffTurn c r with
    | error e =>
      simp [runHandoffs, hs] at h
    | ok cm =>
      simp only [runHandoffs, hs] at h
      exact ih cm h (handoffTurn_active_le_one c cm r hs hl)

/-- Activation invariant of the handoff controller, together with the two
no-change rules: a self-handoff is accepted and changes nothing, and a turn
without a handoff intent changes nothing. -/
def HandoffSpec (c : HandoffController) : Prop :=
  c.activeList.length ≤ 1 ∧
  (∀ d : HandoffController, ∀ p : PersonaName, ∀ name : String,
      d.activeList = [p] → findPersona d.registry name = some p →
      handoffTurn d (some name) = Except.ok d) ∧
  (∀ d : HandoffController, handoffTurn d none = Except.ok d)

/-- Initial controller state of a call: the given registry with the intent
classifier active (spec section 4.4, initial state). -/
def initController (reg : List (String × PersonaName)) : HandoffController :=
  { registry := reg, activeList := [PersonaName.intent_classifier] }

/-- C1: starting from the intent classifier active, every sequence of
handoff requests (hence in particular every sequence consistent with the
spec transition table) keeps at most one persona active; activation changes
only through a handoff (a turn without a handoff intent is the identity);
and a request naming the currently active persona is accepted as a no-op,
not an error.  Modelled from the spec: the HandoffController is not under
`src/`. -/
theorem C1_single_active_persona (reg : List (String × PersonaName))
    (reqs : List (Option String)) (c : HandoffController)
    (h : runHandoffs (initController reg) reqs = Except.ok c) : HandoffSpec c := by
  refine ⟨runHandoffs_active_le_one reqs _ c h (Nat.le_refl 1), ?_, ?_⟩
  · intro d p name hal hf
    simp [handoffTurn, lookup_persona, hf, hal]
  · intro d
    rfl

/-- Turn sequence used to witness C1: classify to order, a quiet turn, a
self-handoff of the order persona, then a handoff to confirmation. -/
def reqsW : List (Option String) :=
  [some "order", none, some "order", some "confirmation"]

/-- Controller state after running `reqsW` from the initial state. -/
def handoffW : HandoffController :=
  { registry := registryEntries, activeList := [PersonaName.confirmation] }

/-- Witness for C1 on the concrete turn sequence `reqsW`. -/
theorem C1_single_active_persona_witness :
    runHandoffs (initController registryEntries) reqsW = Except.ok handoffW ∧
    HandoffSpec handoffW :=
  ⟨rfl, C1_single_active_persona registryEntries reqsW handoffW rfl⟩

/-- The closed intent variants of spec section 9 (`Intent` in
`{order, reservation, unknown}`). -/
inductive Intent where
  | order
  | reservation
  | unknown
deriving DecidableEq, Repr

/-- Modelled from the spec: the IntentClassifier loop (spec section 4.3 and
scenario 3).  `results i` is the outcome of the i-th `classify_intent`
call; `fuel` is the remaining classification budget and `k` the index of
the next call.  A non-`unknown` outcome is returned at once; when the
budget is exhausted the documented fallback `order` is returned without a
further call.  The second component is the total number of
`classify_intent` calls made. -/
def classifyLoop (results : Nat → Intent) : Nat → Nat → Intent × Nat
  | k, 0 => (Intent.order, k)
  | k, fuel + 1 =>
    match results k with
    | Intent.unknown => classifyLoop results (k + 1) fuel
    | r => (r, k + 1)

/-- Modelled from the spec: the classifier makes an initial attempt plus at
most `retries` re-attempts (the configurable attempt policy, default 2)
before falling back to `order`. -/
def runIntentClassifier (retries : Nat) (results : Nat → Intent) : Intent × Nat :=
  classifyLoop results 0 (1 + retries)

/-- When every consulted outcome is `unknown`, the loop exhausts its budget
and falls back to `order`, having made exactly `fuel` calls past `k`. -/
theorem classifyLoop_all_unknown (results : Nat → Intent) (fuel k : Nat)
    (h : ∀ i, k ≤ i → i < k + fuel → results i = Intent.unknown) :
    classifyLoop results k fuel = (Intent.order, k + fuel) := by
  induction fuel generalizing k with
  | zero => rfl
  | succ n ih =>
    have hk : results k = Intent.unknown :=
      h k (Nat.le_refl k) (by omega)
    show (match results k with
      | Intent.unknown => classifyLoop results (k + 1) n
      | r => (r, k + 1)) = (Intent.order, k + Nat.succ n)
    rw [hk]
    have := ih (k + 1) (fun i h1 h2 => h i (by omega) (by omega))
    rw [this]
    simp only [Prod.mk.injEq, true_and]
    omega

/-- The loop never makes more calls than its budget allows. -/
theorem classifyLoop_calls_le (results : Nat → Intent) (fuel k : Nat) :
    (classifyLoop results k fuel).2 ≤ k + fuel := by
  induction fuel generalizing k with
  | zero => simp [classifyLoop]
  | succ n ih =>
    show (match results k with
      | Intent.unknown => classifyLoop results (k + 1) n
      | r => (r, k + 1)).2 ≤ k + Nat.succ n
    cases results k with
    | unknown =>
      have := ih (k + 1)
      calc (classifyLoop results (k + 1) n).2 ≤ (k + 1) + n := this
        _ ≤ k + Nat.succ n := by omega
    | order => simp
    | reservation => simp

/-- C6: with the default policy of two re-attempts, if `classify_intent`
returns `unknown` on each attempt the classifier falls back to the `order`
intent after exactly three calls instead of classifying again; and in
general the number of `classify_intent` calls never exceeds the configured
budget, so a fourth classification never runs under the default policy.
Modelled from the spec: the IntentClassifierAgent is not under `src/`. -/
theorem C6_intent_fallback (results : Nat → Intent)
    (h : ∀ i, i < 3 → results i = Intent.unknown) :
    runIntentClassifier 2 results = (Intent.order, 3) ∧
    (∀ retries : Nat, ∀ res2 : Nat → Intent,
      (runIntentClassifier retries res2).2 ≤ 1 + retries) := by
  constructor
  · have := classifyLoop_all_unknown results 3 0
      (fun i h1 h2 => h i (by omega))
    simpa [runIntentClassifier] using this
  · intro retries res2
    have := classifyLoop_calls_le res2 (1 + retries) 0
    simpa [runIntentClassifier] using this

/-- Witness for C6 on the constant-`unknown` outcome stream. -/
theorem C6_intent_fallback_witness :
    runIntentClassifier 2 (fun _ => Intent.unknown) = (Intent.order, 3) ∧
    (∀ retries : Nat, ∀ res2 : Nat → Intent,
      (runIntentClassifier retries res2).2 ≤ 1 + retries) :=
  C6_intent_fallback (fun _ => Intent.unknown) (fun _ _ => rfl)

/-- Domain errors of the Order/Confirmation personas as named by the spec
(sections 4.3 and 7): `ItemUnavailableError`, `AlreadyFinalizedError`, and
the domain error for non-positive quantities. -/
inductive OrderError where
  | invalidQuantity
  | itemUnavailable
  | alreadyFinalized
deriving DecidableEq, Repr

/-- One line of the in-progress order: an item identifier and a quantity. -/
structure OrderLine where
  item_id : String
  quantity : Int
deriving DecidableEq, Repr

/-- Modelled from the spec: the `order_in_progress` record of the
CallSession (spec section 3: items, quantities) together with the
finalized flag set by `finalize_order` (spec section 4.3, Confirmation). -/
structure OrderState where
  lines : List OrderLine
  finalized : Bool
deriving DecidableEq, Repr

/-- Modelled from the spec: the Order persona `add_item` action (spec
sections 4.3 and 8).  Mutating a finalized order fails with
`AlreadyFinalizedError`; quantities must be positive integers; an item id
absent from the available-items view of the MenuCache fails with
`ItemUnavailableError`; otherwise the line is appended to the in-progress
order. -/
def add_item (cache : MenuSnapshot) (st : OrderState) (itemId : String)
    (qty : Int) : Except OrderError OrderState :=
  if st.finalized then Except.error OrderError.alreadyFinalized
  else if qty ≤ 0 then Except.error OrderError.invalidQuantity
  else if (availableItems cache).any (fun it => decide (it.id = itemId)) then
    Except.ok { st with lines := st.lines ++ [{ item_id := itemId, quantity := qty }] }
  else Except.error OrderError.itemUnavailable

/-- Modelled from the spec: the Confirmation persona `finalize_order`
action (spec section 4.3): marks the in-progress order finalized; on an
already-finalized order it fails with `AlreadyFinalizedError`. -/
def finalize_order (st : OrderState) : Except OrderError OrderState :=
  if st.finalized then Except.error OrderError.alreadyFinalized
  else Except.ok { st with finalized := true }

/-- C7: adding an item with quantity at most zero fails with a domain error
(and with `invalidQuantity` on a not-yet-finalized order); adding an item id
absent from the available-items view fails with `ItemUnavailableError`; and
after `finalize_order` succeeds, any further `add_item` on that session
fails with `AlreadyFinalizedError`.  Modelled from the spec: the
OrderAgent/ConfirmationAgent classes are not under `src/`. -/
theorem C7_order_mutation_errors (cache : MenuSnapshot) (st : OrderState)
    (itemId : String) (qty : Int) :
    (qty ≤ 0 → ∃ e, add_item cache st itemId qty = Except.error e) ∧
    (st.finalized = false → qty ≤ 0 →
      add_item cache st itemId qty = Except.error OrderError.invalidQuantity) ∧
    (st.finalized = false → 0 < qty →
      (availableItems cache).any (fun it => decide (it.id = itemId)) = false →
      add_item cache st itemId qty = Except.error OrderError.itemUnavailable) ∧
    (∀ st2, finalize_order st = Except.ok st2 →
      add_item cache st2 itemId qty = Except.error OrderError.alreadyFinalized) := by
  refine ⟨?_, ?_, ?_, ?_⟩
  · intro hq
    cases hf : st.finalized with
    | true => exact ⟨OrderError.alreadyFinalized, by simp [add_item, hf]⟩
    | false => exact ⟨OrderError.invalidQuantity, by simp [add_item, hf, hq]⟩
  · intro hf hq
    simp [add_item, hf, hq]
  · intro hf hq hav
    have hq2 : ¬ qty ≤ 0 := by omega
    simp [add_item, hf, hq2, hav]
  · intro st2 hfin
    cases hf : st.finalized with
    | true =>
      rw [finalize_order, if_pos hf] at hfin
      cases hfin
    | false =>
      rw [finalize_order, if_neg (by simp [hf])] at hfin
      injection hfin with h2
      rw [← h2]
      simp [add_item]

/-- Empty, not yet finalized order. -/
def orderW : OrderState := { lines := [], finalized := false }

/-- The order after a successful `finalize_order` on `orderW`. -/
def orderFinW : OrderState := { lines := [], finalized := true }

/-- Witness for C7 on concrete order states and the concrete snapshot
`cacheW`. -/
theorem C7_order_mutation_errors_witness :
    (∃ e, add_item cacheW orderW "m1" (-1) = Except.error e) ∧
    add_item cacheW orderW "m1" 0 = Except.error OrderError.invalidQuantity ∧
    add_item cacheW orderW "ghost-item" 2 = Except.error OrderError.itemUnavailable ∧
    add_item cacheW orderFinW "m1" 2 = Except.error OrderError.alreadyFinalized :=
  ⟨(C7_order_mutation_errors cacheW orderW "m1" (-1)).1 (by decide),
   (C7_order_mutation_errors cacheW orderW "m1" 0).2.1 rfl (by decide),
   (C7_order_mutation_errors cacheW orderW "ghost-item" 2).2.2.1 rfl (by decide) (by decide),
   (C7_order_mutation_errors cacheW orderW "m1" 2).2.2.2 orderFinW rfl⟩
